import Mathlib

set_option autoImplicit false

namespace MultiRemote

/-! Shallow embedding of the multiRemote static configuration (src/setup.py)
and of the two device drivers present in the repository
(src/driver_irplus.py, src/driver_roku.py).  The router / catalog /
allocation engine itself is not part of the source tree; where a claim
depends on it, the corresponding definition is modelled from the spec and
says so in its doc comment. -/

/-- Capability of a routing entry: the routing table declares per scene
driver an `audio` route list and an `audio+video` route list. -/
inductive Cap
  | audio
  | audioVideo
deriving DecidableEq, Repr

/-- One entry of a route: a driver id together with the ordered list of
commands to execute on it when the route is chosen.  An empty command
list means the driver participates via power only. -/
structure RouteHop where
  driver : String
  commands : List String
deriving DecidableEq, Repr

/-- A route is a mapping from driver id to command list; embedded as an
association list in the order the source writes the keys. -/
abbrev Route := List RouteHop

/-- The two per-scene route lists of ROUTING_TABLE.  A scene driver that
declares no list for a capability gets none. -/
structure SceneRoutes where
  audio : Option (List Route)
  audioVideo : Option (List Route)
deriving DecidableEq, Repr

/-- SystemSetup.ROUTING_TABLE from src/setup.py, lines 121-186, verbatim. -/
def ROUTING_TABLE : List (String × SceneRoutes) :=
  [ ("spotify",
      ⟨some [[⟨"receiver", ["input-mdcdr"]⟩]], none⟩),
    ("null1",
      ⟨some [[⟨"receiver", ["input-cd"]⟩]], none⟩),
    ("plex",
      ⟨some [[⟨"receiver", ["input-dvr"]⟩]],
       some [[⟨"tv", ["input-hdmi1"]⟩, ⟨"receiver", ["input-dvr"]⟩],
             [⟨"projector", []⟩, ⟨"receiver", ["input-dvr"]⟩, ⟨"screen", []⟩]]⟩),
    ("roku",
      ⟨some [[⟨"receiver", ["input-dvd"]⟩]],
       some [[⟨"tv", ["input-hdmi1"]⟩, ⟨"receiver", ["input-dvd"]⟩],
             [⟨"projector", []⟩, ⟨"receiver", ["input-dvd"]⟩, ⟨"screen", []⟩]]⟩),
    ("ps4",
      ⟨some [[⟨"receiver", ["input-cbl"]⟩, ⟨"splitter", ["input-hdmi2"]⟩]],
       some [[⟨"receiver", ["input-cbl"]⟩, ⟨"tv", ["input-hdmi1"]⟩,
              ⟨"splitter", ["input-hdmi2"]⟩],
             [⟨"receiver", ["input-cbl"]⟩, ⟨"projector", []⟩,
              ⟨"splitter", ["input-hdmi2"]⟩, ⟨"screen", []⟩]]⟩),
    ("dvd",
      ⟨some [[⟨"receiver", ["input-cbl"]⟩, ⟨"splitter", ["input-hdmi3"]⟩]],
       some [[⟨"receiver", ["input-cbl"]⟩, ⟨"tv", ["input-hdmi1"]⟩,
              ⟨"splitter", ["input-hdmi3"]⟩],
             [⟨"receiver", ["input-cbl"]⟩, ⟨"projector", []⟩,
              ⟨"splitter", ["input-hdmi3"]⟩, ⟨"screen", []⟩]]⟩) ]

/-- A scene of SCENE_TABLE: producing driver, optional driver-extras, and
the audio/video capability flags.  The cosmetic name, description and
ux-hint strings are omitted (no claim concerns them). -/
structure Scene where
  driver : String
  extras : Option String
  audio : Bool
  video : Bool
deriving DecidableEq, Repr

/-- SystemSetup.SCENE_TABLE from src/setup.py, lines 216-281 (driver,
driver-extras, audio, video fields). -/
def SCENE_TABLE : List (String × Scene) :=
  [ ("spotify", ⟨"spotify", none, true, false⟩),
    ("airplay", ⟨"null1", none, true, false⟩),
    ("dvd", ⟨"dvd", none, true, true⟩),
    ("plex", ⟨"plex", none, true, true⟩),
    ("netflix", ⟨"roku", some "app=netflix", true, true⟩),
    ("amazon", ⟨"roku", some "app=amazon", true, true⟩),
    ("ps4", ⟨"ps4", none, true, true⟩) ]

/-- A concrete (sub)zone: optional audio driver reference and optional
video driver reference, each a driver id possibly followed by a colon and
a sub-index (for example receiver:1).  Cosmetic fields omitted. -/
structure SubZone where
  audio : Option String
  video : Option String
deriving DecidableEq, Repr

/-- A zone of ZONE_TABLE: either a simple zone, or a virtual zone with a
default sub-zone name and a sub-zone table. -/
inductive ZoneDef
  | simple : SubZone → ZoneDef
  | virt : Option String → List (String × SubZone) → ZoneDef
deriving DecidableEq, Repr

/-- The tv sub-zone of zone1 (src/setup.py lines 326-331). -/
def tvSZ : SubZone := ⟨some "receiver:1", some "tv"⟩

/-- The projector sub-zone of zone1 (src/setup.py lines 332-337). -/
def projSZ : SubZone := ⟨some "receiver:1", some "projector"⟩

/-- The virtual zone zone1 (Livingroom): default sub-zone tv, sub-zones
tv and projector (src/setup.py lines 322-340). -/
def zone1Def : ZoneDef := .virt (some "tv") [("tv", tvSZ), ("projector", projSZ)]

/-- SystemSetup.ZONE_TABLE from src/setup.py, lines 321-353. -/
def ZONE_TABLE : List (String × ZoneDef) :=
  [ ("zone1", zone1Def),
    ("zone2", .simple ⟨some "receiver:2", none⟩),
    ("zone3", .simple ⟨some "receiver:3", none⟩) ]

/-- SystemSetup.DRIVER_TABLE from src/setup.py, lines 52-63: driver id to
the driver class instantiated for it (constructor arguments omitted). -/
def DRIVER_TABLE : List (String × String) :=
  [ ("receiver", "DriverRXV1900"),
    ("spotify", "DriverSpotify"),
    ("splitter", "DriverBasicIR"),
    ("tv", "DriverBasicIR"),
    ("dvd", "DriverIRPlus"),
    ("screen", "DriverBasicIR"),
    ("projector", "DriverIRPlus"),
    ("plex", "DriverPlex"),
    ("roku", "DriverRoku"),
    ("null1", "DriverNull") ]

/-- True when the driver id is a key of DRIVER_TABLE. -/
def declaredDriver (d : String) : Bool := (DRIVER_TABLE.lookup d).isSome

/-- The driver id of a zone driver reference: the part before the first
colon (a reference such as receiver:1 names driver receiver, sub-index 1;
Python: ref.split(":")[0]). -/
def driverId (ref : String) : String :=
  String.mk (ref.data.takeWhile (fun c => c ≠ ':'))

/-- The ordered driver-id key list of a route. -/
def routeDrivers (r : Route) : List String := r.map RouteHop.driver

/-- Modelled from the spec: Catalog.routesFor (spec section 4.2) — the
ordered candidate route list for a scene driver and capability, empty if
none declared.  The catalog implementation is not in src/; the table it
reads is ROUTING_TABLE. -/
def routesFor (sceneDriver : String) (c : Cap) : List Route :=
  match ROUTING_TABLE.lookup sceneDriver with
  | none => []
  | some sr =>
    match c with
    | .audio => sr.audio.getD []
    | .audioVideo => sr.audioVideo.getD []

/-- Modelled from the spec: Router.activate step 2 (spec section 4.3) —
the target capability for a scene on a concrete zone: audio+video when
the scene provides video and the zone has a video driver, else audio when
the scene provides audio and the zone has an audio driver.  The router
implementation is not in src/. -/
def targetCap (sc : Scene) (sz : SubZone) : Option Cap :=
  if sc.video && sz.video.isSome then some .audioVideo
  else if sc.audio && sz.audio.isSome then some .audio
  else none

/-- Modelled from the spec: the zone drivers that must appear as keys of
a qualifying route (spec section 4.3 step 4): for audio the zone audio
driver, for audio+video both the video and the audio driver. -/
def zoneNeeds (sz : SubZone) : Cap → List String
  | .audio => (sz.audio.map driverId).toList
  | .audioVideo => (sz.video.map driverId).toList ++ (sz.audio.map driverId).toList

/-- Modelled from the spec: Router.activate step 4 (spec section 4.3) —
the first candidate route, in declaration order, whose driver-id key set
contains every needed zone driver.  The router implementation is not in
src/. -/
def selectRoute (routes : List Route) (needs : List String) : Option Route :=
  routes.find? (fun r => needs.all (fun d => (routeDrivers r).contains d))

/-- Modelled from the spec: Router.activate step 5 (spec section 4.3) —
the required driver set: the chosen route driver keys together with the
scene producing driver. -/
def requiredDrivers (sc : Scene) (r : Route) : List String :=
  let ks := routeDrivers r
  if ks.contains sc.driver then ks else ks ++ [sc.driver]

/-- Arbitration-logic failure kinds of the router (spec section 7). -/
inductive RError
  | capabilityMismatch
  | noRouteDefined
  | noMatchingRoute
  | driverConflict (driver : String) (owningZone : String)
  | noDefaultSubzone
deriving DecidableEq, Repr

/-- Allocation table fragment: which concrete zone currently holds each
driver (driver id to owning zone id). -/
abbrev Alloc := List (String × String)

/-- Modelled from the spec: Router.activate step 6 (spec section 4.3) —
the first required driver already held by a different zone, with its
owning zone.  The router implementation is not in src/. -/
def findConflict (alloc : Alloc) (zone : String) (req : List String) :
    Option (String × String) :=
  req.findSome? (fun d =>
    match alloc.lookup d with
    | some owner => if owner = zone then none else some (d, owner)
    | none => none)

/-- Modelled from the spec: Router.activate step 7 commit (spec section
4.3) — release the zone's previous claims (and, under override, the
contested drivers from their owners) and record every required driver as
held by the activating zone. -/
def commitAlloc (alloc : Alloc) (zone : String) (req : List String) : Alloc :=
  (alloc.filter (fun p => !(req.contains p.1) && p.2 ≠ zone)) ++
    req.map (fun d => (d, zone))

/-- Modelled from the spec: Router.activate steps 2-7 (spec section 4.3)
for a concrete (sub)zone.  Returns the route decision (chosen route and
required driver set) or a structured failure, together with the
allocation table after the call: a failed activation returns the table
unchanged.  The router implementation is not in src/. -/
def activate (alloc : Alloc) (zone : String) (sz : SubZone) (sc : Scene)
    (override : Bool) : Except RError (Route × List String) × Alloc :=
  match targetCap sc sz with
  | none => (.error .capabilityMismatch, alloc)
  | some c =>
    let routes := routesFor sc.driver c
    if routes.isEmpty then (.error .noRouteDefined, alloc)
    else
      match selectRoute routes (zoneNeeds sz c) with
      | none => (.error .noMatchingRoute, alloc)
      | some r =>
        let req := requiredDrivers sc r
        match findConflict alloc zone req with
        | some (d, owner) =>
          if override then (.ok (r, req), commitAlloc alloc zone req)
          else (.error (.driverConflict d owner), alloc)
        | none => (.ok (r, req), commitAlloc alloc zone req)

deriving instance DecidableEq for Except

/-- Every candidate route of every scene driver of ROUTING_TABLE, in
order. -/
def allRoutes : List Route :=
  ROUTING_TABLE.foldr
    (fun p acc => p.2.audio.getD [] ++ p.2.audioVideo.getD [] ++ acc) []

/-- The sub-zone a name selects in a sub-zone table, together with its
name; none when the name is absent or no name is given. -/
def subzoneFor (subs : List (String × SubZone)) (sel : Option String) :
    Option (String × SubZone) :=
  sel.bind (fun s => (subs.lookup s).map (fun sz => (s, sz)))

/-- Modelled from the spec: Catalog.resolveConcreteZone (spec section
4.2) — a simple zone resolves to itself with no sub-zone name; a virtual
zone resolves to the active sub-zone recorded in Allocation state when
there is one, else to the declared default, and fails with
NoDefaultSubzone when it has neither.  The catalog implementation is not
in src/; the zone data is ZONE_TABLE. -/
def resolveConcreteZone (active : Option String) :
    ZoneDef → Except RError (Option String × SubZone)
  | .simple sz => .ok (none, sz)
  | .virt dflt subs =>
    match subzoneFor subs active with
    | some (s, sz) => .ok (some s, sz)
    | none =>
      match subzoneFor subs dflt with
      | some (s, sz) => .ok (some s, sz)
      | none => .error .noDefaultSubzone

/-- Python str.split with a one-character separator, on character lists:
splitComma l splits l at every comma; the empty list splits to one empty
field, as in Python. -/
def splitComma : List Char → List (List Char)
  | [] => [[]]
  | c :: rest =>
    let r := splitComma rest
    if c = ',' then [] :: r
    else
      match r with
      | [] => [[c]]
      | x :: xs => (c :: x) :: xs

/-- Python str.isdigit: true when the string is non-empty and every
character is a decimal digit. -/
def pyIsDigit (l : List Char) : Bool := !l.isEmpty && l.all Char.isDigit

/-- Python int() on a decimal digit string. -/
def pyInt (l : List Char) : Nat := l.foldl (fun n c => n * 10 + (c.toNat - 48)) 0

/-- An observable effect of DriverIRPlus command execution: the call
time.sleep(n), whose argument is a number of seconds, or one IR command
handed to sendIr. -/
inductive IrEffect
  | sleepSeconds (secs : Nat)
  | irSend (cmd : String)
deriving DecidableEq, Repr

/-- DriverIRPlus.sendCommand from src/driver_irplus.py lines 99-105: the
command string is split on commas; a token that is all digits becomes
time.sleep(int(token)) — a suspension of that many seconds — and every
other token is sent as an IR command. -/
def sendCommand (command : String) : List IrEffect :=
  (splitComma command.data).map (fun cmd =>
    if pyIsDigit cmd then .sleepSeconds (pyInt cmd) else .irSend (String.mk cmd))

/-- The modules imported by src/driver_irplus.py (lines 43-47): the time
module is not among them, so the time.sleep call in sendCommand names an
unbound identifier at runtime. -/
def irplusImports : List String :=
  ["driver_null", "requests", "base64", "json", "commandtype"]

/-- The state of a DriverIRPlus instance: the power flag (inherited from
DriverNull, whose source is not in the repository; initially off), the
names of the power-on (type 901) and power-off (type 902) commands, and
the command table restricted to the extras (sequence) strings the
handlers receive. -/
structure IRState where
  power : Bool
  cmd_on : Option String
  cmd_off : Option String
  COMMAND_HANDLER : List (String × String)
deriving DecidableEq, Repr

/-- One entry of the commands object of a DriverIRPlus config file:
command name, numeric type, optional sequence string. -/
structure CmdDef where
  name : String
  type : Nat
  sequence : Option String
deriving DecidableEq, Repr

/-- The config loop of DriverIRPlus.__init__ (src/driver_irplus.py lines
63-81): each command is registered with extras defaulting to its own
name and overridden by a declared sequence; a type 901 command becomes
cmd_on and a type 902 command becomes cmd_off. -/
def loadCommands : IRState → List CmdDef → IRState
  | st, [] => st
  | st, c :: rest =>
    loadCommands
      { st with
        COMMAND_HANDLER := st.COMMAND_HANDLER ++ [(c.name, c.sequence.getD c.name)],
        cmd_on := if c.type = 901 then some c.name else st.cmd_on,
        cmd_off := if c.type = 902 then some c.name else st.cmd_off }
      rest

/-- DriverIRPlus.__init__ (src/driver_irplus.py lines 50-81) restricted
to the fields the claims concern: power starts off, no power commands are
known, and the config commands are loaded in order. -/
def initDriverIRPlus (cmds : List CmdDef) : IRState :=
  loadCommands ⟨false, none, none, []⟩ cmds

/-- The extras string registered for a command name; by construction of
loadCommands a looked-up power command is present, and the default equals
the registration default (the command name itself). -/
def extrasOf (st : IRState) (c : String) : String :=
  (st.COMMAND_HANDLER.lookup c).getD c

/-- DriverIRPlus.setPower from src/driver_irplus.py lines 83-97: when the
power flag already equals the request, return True at once; otherwise
send the power-on sequence when turning on with a cmd_on defined, else
the power-off sequence when a cmd_off is defined, then record the
requested flag and return True. -/
def setPower (st : IRState) (enable : Bool) : Bool × IRState × List IrEffect :=
  if st.power = enable then (true, st, [])
  else
    let effs :=
      match enable, st.cmd_on with
      | true, some c => sendCommand (extrasOf st c)
      | _, _ =>
        match st.cmd_off with
        | some c => sendCommand (extrasOf st c)
        | none => []
    (true, { st with power := enable }, effs)

/-- The outcome of a DriverIRPlus.sendIr call: the unhandled KeyError
raised by the dictionary subscript on an unknown command, the explicit
False return on a non-200 response, or the implicit None return of the
fall-through. -/
inductive IrSendResult
  | keyError (cmd : String)
  | retFalse
  | retNone
deriving DecidableEq, Repr

/-- A DriverIRPlus.sendIr run: the lines printed, the urls requested, and
the outcome. -/
structure SendIrRun where
  prints : List String
  gets : List String
  result : IrSendResult
deriving DecidableEq, Repr

/-- DriverIRPlus.sendIr from src/driver_irplus.py lines 107-119: a
command missing from the ircmds table prints a warning and then the
subscript of the table raises KeyError before any request is made; a
known command is fetched over http, returning False (after an error
print) on a non-200 status and None otherwise.  httpStatus stands for
the status code the external server answers with. -/
def sendIr (server : String) (ircmds : List (String × String))
    (command : String) (httpStatus : Nat) : SendIrRun :=
  let warn :=
    if (ircmds.lookup command).isSome then []
    else ["WARN: " ++ command ++ " is not a defined IR command"]
  match ircmds.lookup command with
  | none => ⟨warn, [], .keyError command⟩
  | some ir =>
    let url := server ++ "/write/" ++ ir
    if httpStatus = 200 then ⟨warn, [url], .retNone⟩
    else ⟨warn ++ ["ERROR: Driver was unable to execute " ++ url], [url], .retFalse⟩

/-- An observable http request of the Roku driver. -/
inductive HttpEffect
  | get (url : String)
  | post (url : String)
deriving DecidableEq, Repr

/-- Termination of a Python call: normal completion, or an uncaught
NameError naming the unbound identifier. -/
inductive PyOutcome
  | done
  | nameError (n : String)
deriving DecidableEq, Repr

/-- Python str.lower, per character. -/
def pyLower (s : String) : String := String.mk (s.data.map Char.toLower)

/-- Whether the needle character list matches at the head of the hay. -/
def matchesAt : List Char → List Char → Bool
  | [], _ => true
  | _ :: _, [] => false
  | a :: as, b :: bs => a = b && matchesAt as bs

/-- Python hay.find(needle) > -1: the needle occurs somewhere in the
hay (an empty needle always occurs). -/
def pyFindHit (needle : List Char) : List Char → Bool
  | [] => needle.isEmpty
  | c :: rest => matchesAt needle (c :: rest) || pyFindHit needle rest

/-- DriverRoku.eventExtras from src/driver_roku.py lines 70-92: the app
list is first fetched from the device (self.getApps() issues a GET on
query/apps); an app key of the extras launches the first listed app
whose lowercased name contains the requested string; otherwise an appid
key reaches the branch int(extras[appid]), whose bare identifier appid is
unbound, raising NameError.  apps stands for the app list the device
reports. -/
def eventExtras (server : String) (apps : List (String × Nat))
    (extras : List (String × String)) : List HttpEffect × PyOutcome :=
  let effs := [HttpEffect.get (server ++ "query/apps")]
  match extras.lookup "app" with
  | some appName =>
    let k := pyLower appName
    match apps.find? (fun p => pyFindHit k.data (pyLower p.1).data) with
    | some p => (effs ++ [HttpEffect.post (server ++ "launch/" ++ toString p.2)], .done)
    | none => (effs, .done)
  | none =>
    match extras.lookup "appid" with
    | some _ => (effs, .nameError "appid")
    | none => (effs, .done)

/-- A Python value as compared in driver_roku: a string or an integer.
Python equality between values of these two different types is always
False; it never coerces a one-character string to its code point. -/
inductive PyVal
  | pstr (s : String)
  | pint (n : Nat)

/-- Python equality on PyVal: equal strings, equal integers, and nothing
across the two types. -/
def pyEq : PyVal → PyVal → Bool
  | .pstr a, .pstr b => a == b
  | .pint a, .pint b => a == b
  | _, _ => false

/-- DriverRoku.navTextInput from src/driver_roku.py lines 151-163: for
each character l of the text, the code compares the one-character string
l with the integers 0x0D, 0x0A and 0x08 and otherwise posts the keypress
Lit_ followed by the character. -/
def navTextInput (server : String) (txt : String) : List HttpEffect :=
  txt.data.map (fun ch =>
    let l := String.singleton ch
    let l2 :=
      if pyEq (.pstr l) (.pint 0x0D) || pyEq (.pstr l) (.pint 0x0A) then "Enter"
      else if pyEq (.pstr l) (.pint 0x08) then "Backspace"
      else "Lit_" ++ l
    HttpEffect.post (server ++ "keypress/" ++ l2))

/-- C1: scene netflix (driver roku, audio and video) on zone1 sub-zone tv
(video driver tv, audio driver receiver:1) targets the audio+video class;
route selection picks the first candidate of the roku audio+video route
list, exactly tv maps to input-hdmi1 and receiver maps to input-dvd,
because its key set contains the zone video driver tv and audio driver
receiver; the required driver set is roku, tv, receiver. -/
theorem netflix_tv_route_selection :
    SCENE_TABLE.lookup "netflix" = some ⟨"roku", some "app=netflix", true, true⟩ ∧
    targetCap ⟨"roku", some "app=netflix", true, true⟩ tvSZ = some .audioVideo ∧
    zoneNeeds tvSZ .audioVideo = ["tv", "receiver"] ∧
    selectRoute (routesFor "roku" .audioVideo) ["tv", "receiver"] =
      some [⟨"tv", ["input-hdmi1"]⟩, ⟨"receiver", ["input-dvd"]⟩] ∧
    (routesFor "roku" .audioVideo).head? =
      some [⟨"tv", ["input-hdmi1"]⟩, ⟨"receiver", ["input-dvd"]⟩] ∧
    (requiredDrivers ⟨"roku", some "app=netflix", true, true⟩
        [⟨"tv", ["input-hdmi1"]⟩, ⟨"receiver", ["input-dvd"]⟩]).toFinset =
      {"roku", "tv", "receiver"} := by
  refine ⟨by decide, by decide, by decide, by decide, by decide, by decide⟩

/-- C2: with zone1 sub-zone tv holding driver receiver, activating the
netflix scene on zone1 sub-zone projector without override fails with
DriverConflict naming receiver and the tv sub-zone, leaves the allocation
unchanged, and indeed receiver is a driver key of both candidate
audio+video routes of the roku scene driver. -/
theorem netflix_projector_driver_conflict :
    activate [("receiver", "zone1.tv")] "zone1.projector" projSZ
        ⟨"roku", some "app=netflix", true, true⟩ false =
      (.error (.driverConflict "receiver" "zone1.tv"),
       [("receiver", "zone1.tv")]) ∧
    (routesFor "roku" .audioVideo).all
        (fun r => (routeDrivers r).contains "receiver") = true ∧
    routesFor "roku" .audioVideo ≠ [] := by
  refine ⟨by decide, by decide, by decide⟩

/-- C6 counterexample: the scene ps4 of SCENE_TABLE names producing
driver ps4, and ps4 is not a key of DRIVER_TABLE, so not every driver id
referenced by the static configuration is declared in the driver
registry table. -/
theorem scene_ps4_driver_undeclared :
    SCENE_TABLE.lookup "ps4" = some ⟨"ps4", none, true, true⟩ ∧
    DRIVER_TABLE.lookup "ps4" = none ∧
    declaredDriver "ps4" = false := by
  refine ⟨by decide, by decide, by decide⟩

/-- C6 amended: every driver key of every route of ROUTING_TABLE is
declared in DRIVER_TABLE, and every scene's producing driver in
SCENE_TABLE is declared except that of scene ps4 (driver ps4), the one
entry a startup validation would reject. -/
theorem config_driver_refs_amended :
    allRoutes.all (fun r => r.all (fun h => declaredDriver h.driver)) = true ∧
    SCENE_TABLE.all
      (fun p => p.1 == "ps4" || declaredDriver p.2.driver) = true ∧
    SCENE_TABLE.filter (fun p => !declaredDriver p.2.driver) =
      [("ps4", ⟨"ps4", none, true, true⟩)] := by
  refine ⟨by decide, by decide, by decide⟩

/-- C7: zone1 with no active sub-zone resolves to its declared default
tv, which is a declared sub-zone; with an active sub-zone recorded, zone1
resolves to that sub-zone; and in general resolution fails with
NoDefaultSubzone exactly when a virtual zone has neither a usable active
sub-zone nor a usable default, never for a simple zone. -/
theorem resolveConcreteZone_spec :
    ZONE_TABLE.lookup "zone1" = some zone1Def ∧
    resolveConcreteZone none zone1Def = .ok (some "tv", tvSZ) ∧
    (∀ s sz, [("tv", tvSZ), ("projector", projSZ)].lookup s = some sz →
      resolveConcreteZone (some s) zone1Def = .ok (some s, sz)) ∧
    (∀ a d subs,
      resolveConcreteZone a (.virt d subs) = .error .noDefaultSubzone ↔
        (subzoneFor subs a = none ∧ subzoneFor subs d = none)) ∧
    (∀ a sz, resolveConcreteZone a (.simple sz) ≠ .error .noDefaultSubzone) := by
  refine ⟨by decide, by decide, ?_, ?_, ?_⟩
  · intro s sz h
    simp [zone1Def, resolveConcreteZone, subzoneFor, h]
  · intro a d subs
    cases hA : subzoneFor subs a with
    | none =>
      cases hD : subzoneFor subs d with
      | none => simp [resolveConcreteZone, hA, hD]
      | some p =>
        obtain ⟨s, sz⟩ := p
        simp [resolveConcreteZone, hA, hD]
    | some p =>
      obtain ⟨s, sz⟩ := p
      simp [resolveConcreteZone, hA]
  · intro a sz
    simp [resolveConcreteZone]

/-- C7 witness: with sub-zone projector recorded active, zone1 resolves
to projector. -/
theorem resolveConcreteZone_spec_witness :
    resolveConcreteZone (some "projector") zone1Def =
      .ok (some "projector", projSZ) :=
  resolveConcreteZone_spec.2.2.1 "projector" projSZ (by decide)

/-- C3: on the command sequence on,200,off the digit token 200 is not
sent to the device but becomes time.sleep(200) — a 200 second (not
millisecond) suspension — after which the remaining token is still
issued; moreover the time module is not even imported by the driver, so
the call site names an unbound identifier. -/
theorem irplus_digit_token_effects :
    sendCommand "on,200,off" =
      [.irSend "on", .sleepSeconds 200, .irSend "off"] ∧
    irplusImports.contains "time" = false := by
  refine ⟨by decide, by decide⟩

/-- C4 counterexample: a driver whose power is off receives
setPower(False): the call is a no-op success, but it returns True while
the achieved power state is False, so the returned value does not report
the achieved state. -/
theorem setPower_return_not_achieved_state :
    (setPower (initDriverIRPlus [⟨"on", 901, none⟩, ⟨"off", 902, some "off,200,off"⟩]) false).1 = true ∧
    (setPower (initDriverIRPlus [⟨"on", 901, none⟩, ⟨"off", 902, some "off,200,off"⟩]) false).2.1.power = false ∧
    (setPower (initDriverIRPlus [⟨"on", 901, none⟩, ⟨"off", 902, some "off,200,off"⟩]) false).2.2 = [] ∧
    (setPower (initDriverIRPlus [⟨"on", 901, none⟩, ⟨"off", 902, some "off,200,off"⟩]) false).1 ≠
      (setPower (initDriverIRPlus [⟨"on", 901, none⟩, ⟨"off", 902, some "off,200,off"⟩]) false).2.1.power := by
  refine ⟨by decide, by decide, by decide, by decide⟩

/-- C4 amended: setPower is idempotent — when the current power flag
already equals the request it is a no-op that returns success True and
issues no device command; the constant True return coincides with the
achieved state only when the request is on. -/
theorem setPower_idempotent_noop (st : IRState) (e : Bool) (h : st.power = e) :
    setPower st e = (true, st, []) := by
  simp [setPower, h]

/-- C4 witness: the idempotent no-op at a concrete powered-off driver. -/
theorem setPower_idempotent_noop_witness :
    setPower (initDriverIRPlus [⟨"on", 901, none⟩]) false =
      (true, initDriverIRPlus [⟨"on", 901, none⟩], []) :=
  setPower_idempotent_noop _ false (by decide)

/-- Loading commands none of which has type 901 or 902 leaves cmd_on and
cmd_off untouched. -/
theorem loadCommands_no_power_cmds (cmds : List CmdDef) :
    ∀ st : IRState, (∀ c ∈ cmds, c.type ≠ 901 ∧ c.type ≠ 902) →
      (loadCommands st cmds).cmd_on = st.cmd_on ∧
      (loadCommands st cmds).cmd_off = st.cmd_off := by
  induction cmds with
  | nil => intro st _; exact ⟨rfl, rfl⟩
  | cons c rest ih =>
    intro st h
    have hc := h c (by simp)
    have hrest : ∀ x ∈ rest, x.type ≠ 901 ∧ x.type ≠ 902 :=
      fun x hx => h x (List.mem_cons_of_mem c hx)
    have step := ih
      { st with
        COMMAND_HANDLER := st.COMMAND_HANDLER ++ [(c.name, c.sequence.getD c.name)],
        cmd_on := if c.type = 901 then some c.name else st.cmd_on,
        cmd_off := if c.type = 902 then some c.name else st.cmd_off }
      hrest
    simpa [loadCommands, hc.1, hc.2] using step

/-- C8: DriverIRPlus.setPower always returns True; and when the config
declares no type 901 and no type 902 command, a setPower call records the
requested flag and issues no IR command at all while still reporting
success. -/
theorem irplus_setPower_always_true_no_ir :
    (∀ st e, (setPower st e).1 = true) ∧
    (∀ cmds e, (∀ c ∈ cmds, c.type ≠ 901 ∧ c.type ≠ 902) →
      (setPower (initDriverIRPlus cmds) e).1 = true ∧
      (setPower (initDriverIRPlus cmds) e).2.1.power = e ∧
      (setPower (initDriverIRPlus cmds) e).2.2 = []) := by
  constructor
  · intro st e
    unfold setPower
    split <;> rfl
  · intro cmds e h
    have hon : (initDriverIRPlus cmds).cmd_on = none := by
      simpa [initDriverIRPlus] using
        (loadCommands_no_power_cmds cmds ⟨false, none, none, []⟩ h).1
    have hoff : (initDriverIRPlus cmds).cmd_off = none := by
      simpa [initDriverIRPlus] using
        (loadCommands_no_power_cmds cmds ⟨false, none, none, []⟩ h).2
    by_cases hp : (initDriverIRPlus cmds).power = e
    · simp [setPower, hp]
    · cases e <;> simp [setPower, hp, hon, hoff]

/-- C8 witness: a config with a single non-power command, powered on. -/
theorem irplus_setPower_always_true_no_ir_witness :
    (setPower (initDriverIRPlus [⟨"play", 1, none⟩]) true).1 = true ∧
    (setPower (initDriverIRPlus [⟨"play", 1, none⟩]) true).2.1.power = true ∧
    (setPower (initDriverIRPlus [⟨"play", 1, none⟩]) true).2.2 = [] :=
  irplus_setPower_always_true_no_ir.2 [⟨"play", 1, none⟩] true (by decide)

/-- C5: sending a command name that is not registered prints a warning
and then dies with an unhandled KeyError from the dictionary subscript —
not a structured UnknownCommand failure. -/
theorem sendIr_unknown_command_keyerror :
    sendIr "http://raspberry.sfo.sensenet.nu:5001" [("on", "A90")] "bogus" 200 =
      ⟨["WARN: bogus is not a defined IR command"], [], .keyError "bogus"⟩ := by
  decide

/-- C9 counterexample: with extras holding appid but not app, the call
does contact the device — the app-list GET is issued — before the
NameError is raised, so the NameError does not precede all device
contact. -/
theorem eventExtras_appid_contacts_device :
    eventExtras "http://roku.sfo.sensenet.nu:8060/" [("Netflix", 12)]
        [("appid", "12")] =
      ([.get "http://roku.sfo.sensenet.nu:8060/query/apps"], .nameError "appid") ∧
    (eventExtras "http://roku.sfo.sensenet.nu:8060/" [("Netflix", 12)]
        [("appid", "12")]).1 ≠ [] := by
  refine ⟨by decide, by decide⟩

/-- C9 amended: for every extras mapping with an appid key and no app
key, eventExtras issues exactly the app-list query and then raises
NameError on the unbound identifier appid, so no launch request is ever
made through the appid path. -/
theorem eventExtras_appid_nameError (server : String)
    (apps : List (String × Nat)) (extras : List (String × String))
    (happ : extras.lookup "app" = none)
    (hid : (extras.lookup "appid").isSome = true) :
    eventExtras server apps extras =
      ([.get (server ++ "query/apps")], .nameError "appid") := by
  obtain ⟨v, hv⟩ := Option.isSome_iff_exists.mp hid
  simp [eventExtras, happ, hv]

/-- C9 witness: a concrete extras mapping with only an appid key. -/
theorem eventExtras_appid_nameError_witness :
    eventExtras "http://roku.sfo.sensenet.nu:8060/" [("Netflix", 12)]
        [("appid", "13")] =
      ([.get ("http://roku.sfo.sensenet.nu:8060/" ++ "query/apps")],
       .nameError "appid") :=
  eventExtras_appid_nameError "http://roku.sfo.sensenet.nu:8060/"
    [("Netflix", 12)] [("appid", "13")] (by decide) (by decide)

/-- C10: navTextInput issues exactly one keypress request per character,
always of the literal form Lit_ plus the character — the comparisons of a
one-character string against the integers 0x0D, 0x0A, 0x08 are never
true, so carriage return, newline and backspace are never translated to
Enter or Backspace; shown concretely on a carriage-return input. -/
theorem navTextInput_literal_keypresses :
    (∀ server txt, navTextInput server txt =
      txt.data.map (fun ch =>
        HttpEffect.post (server ++ "keypress/" ++ ("Lit_" ++ String.singleton ch)))) ∧
    (∀ server txt, (navTextInput server txt).length = txt.data.length) ∧
    navTextInput "http://roku.sfo.sensenet.nu:8060/" (String.mk ['\x0D']) =
      [HttpEffect.post ("http://roku.sfo.sensenet.nu:8060/" ++ "keypress/" ++
        ("Lit_" ++ String.singleton '\x0D'))] := by
  refine ⟨?_, ?_, by decide⟩
  · intro server txt
    simp [navTextInput, pyEq]
  · intro server txt
    simp [navTextInput]

end MultiRemote
